import Mathlib

/-!
Shallow embedding of the checkpoint-driven browser test orchestrator from
this repository (tests/youtube_converter_test.py, services/playwright_service.py,
services/groq_service.py, utils/ocr.py, models/test_result.py).

External effects (browser driver, OCR engine, language-model endpoint, clock)
are modelled as explicit inputs: each point where the Python code consults the
outside world becomes a field of an environment record, and each point where an
external call may raise becomes an `Option String` / `Except String` slot
carrying the would-be exception message.  Python exceptions are modelled by
`Option String` results threaded through the checkpoint functions; a `some msg`
result means the checkpoint re-raised an exception with message `msg`.
-/

/-- Python `str.lower()` restricted to the character-wise lowering Lean provides;
the selectors and keywords involved are pure ASCII, where the two agree. -/
def pyLower (s : String) : String := String.mk (s.toList.map Char.toLower)

/-- Helper for the Python `in` substring test: does the needle occur at some
position of the haystack. -/
def strContainsAux (needle : List Char) : List Char → Bool
  | [] => needle.isEmpty
  | h :: t => needle.isPrefixOf (h :: t) || strContainsAux needle t

/-- Python `needle in hay` substring test. -/
def strContains (hay needle : String) : Bool :=
  strContainsAux needle.toList hay.toList

/-- Python `str.strip()`: drop leading and trailing whitespace. -/
def pyStrip (s : String) : String :=
  String.mk (((s.toList.dropWhile Char.isWhitespace).reverse.dropWhile
    Char.isWhitespace).reverse)

/-- Python `text.encode("ascii", "ignore").decode("ascii")`: drop every
character whose code point is 128 or above, keep the rest unchanged. -/
def asciiIgnore (s : String) : String :=
  String.mk (s.toList.filter (fun c => c.toNat < 128))

/-! ## Groq classifier (services/groq_service.py) -/

/-- JSON values as returned by Python `json.loads`. -/
inductive JVal where
  | obj (fields : List (String × JVal))
  | arr (items : List JVal)
  | str (s : String)
  | num (n : Int)
  | bool (b : Bool)
  | null

/-- Outcome of the chat-completions call inside the classifier `try` blocks:
either the stripped-off response content, or a raised exception message
(network/auth failures, missing content, and so on). -/
inductive LLMOutcome where
  | content (s : String)
  | raises (msg : String)

/-- The regular-expression step `re.search(r"(\x7b.*\x7d)", text, re.DOTALL)`:
with a greedy `.*` under DOTALL this matches from the first opening brace to
the last closing brace at or after it; when the search fails the original
string is kept. -/
def extract_json_part (s : String) : String :=
  let cs := s.toList
  match cs.findIdx? (fun c => c = '{') with
  | none => s
  | some i =>
    match (cs.reverse.findIdx? (fun c => c = '}')).map (fun j => cs.length - 1 - j) with
    | none => s
    | some j => if i ≤ j then String.mk ((cs.drop i).take (j - i + 1)) else s

/-- Exceptions that can escape the `try` body of the classifier methods:
`json.JSONDecodeError` from `json.loads` (carrying the raw string being
parsed, which the handler interpolates), or any other exception. -/
inductive PyExc where
  | jsonDecodeError (msg : String) (raw : String)
  | otherError (msg : String)

/-- The `try` body of `GroqService.check_screenshot_for_errors`: issue the
model call, strip the content, extract the brace-delimited part, and parse it
with `json.loads` (modelled by the external parameter `jsonLoads`, whose
`.error` side is the decode-failure message). -/
def check_screenshot_body (jsonLoads : String → Except String JVal)
    (resp : LLMOutcome) : Except PyExc JVal :=
  match resp with
  | .raises m => .error (.otherError m)
  | .content raw =>
    let error_analysis := pyStrip raw
    let error_analysis := extract_json_part error_analysis
    match jsonLoads error_analysis with
    | .ok v => .ok v
    | .error e => .error (.jsonDecodeError e error_analysis)

/-- `GroqService.check_screenshot_for_errors` (lines 14-69): the two `except`
clauses turn every exception from the body into a returned dictionary, so the
embedded function returns a plain `JVal` with no exception component. -/
def check_screenshot_for_errors (jsonLoads : String → Except String JVal)
    (resp : LLMOutcome) : JVal :=
  match check_screenshot_body jsonLoads resp with
  | .ok v => v
  | .error (.jsonDecodeError e raw) =>
    .obj [("error", .bool true),
          ("message", .str ("Failed to parse LLM response as JSON: " ++ e
            ++ ". Raw response: " ++ raw))]
  | .error (.otherError m) =>
    .obj [("error", .bool true),
          ("message", .str ("Error analyzing OCR text: " ++ m))]

/-- The `try` body of `GroqService.check_final_state` (lines 126-187); unlike
`check_screenshot_for_errors` it does not call `.strip()` on the content. -/
def check_final_body (jsonLoads : String → Except String JVal)
    (resp : LLMOutcome) : Except PyExc JVal :=
  match resp with
  | .raises m => .error (.otherError m)
  | .content raw =>
    let analysis := extract_json_part raw
    match jsonLoads analysis with
    | .ok v => .ok v
    | .error e => .error (.jsonDecodeError e analysis)

/-- `GroqService.check_final_state`: all exceptions degrade to a returned
error dictionary. -/
def check_final_state (jsonLoads : String → Except String JVal)
    (resp : LLMOutcome) : JVal :=
  match check_final_body jsonLoads resp with
  | .ok v => v
  | .error (.jsonDecodeError e raw) =>
    .obj [("error", .bool true),
          ("message", .str ("Failed to parse LLM response as JSON: " ++ e
            ++ ". Raw response: " ++ raw))]
  | .error (.otherError m) =>
    .obj [("error", .bool true),
          ("message", .str ("Error analyzing final state: " ++ m))]

/-! ## OCR extraction (utils/ocr.py) -/

/-- `extract_text_from_image` (utils/ocr.py lines 9-42).  External pieces as
inputs: `nfkd` is `unicodedata.normalize("NFKD", .)`, `pathExists` the
`os.path.exists` check, and `ocr` the `Image.open` + `pytesseract` call, whose
`.error` side is the message of a raised exception. -/
def extract_text_from_image (nfkd : String → String) (pathExists : Bool)
    (ocr : Except String String) : String :=
  if !pathExists then "Image file not found"
  else
    match ocr with
    | .ok text =>
      let normalized_text := nfkd text
      let ascii_text := asciiIgnore normalized_text
      pyStrip ascii_text
    | .error e => "OCR Error: " ++ e

/-! ## Element locator (the selector loops of tests/youtube_converter_test.py) -/

/-- The first-hit selector loop used at lines 97-109 (and again at lines
276-285, 383-392, 504-513): each strategy outcome is either a raised
`TimeoutError` (`.error`, caught and skipped by `except: continue`), a found
element (`.ok (some e)`, which breaks the loop), or a falsy result
(`.ok none`, which leaves the variable unset and continues). -/
def locateFirst (outcomes : List (Except String (Option String))) : Option String :=
  match outcomes with
  | [] => none
  | .ok (some e) :: _ => some e
  | _ :: rest => locateFirst rest

/-- The broader fallback scan of lines 114-120: walk the clickable-tagged
elements in page order and return the first whose lower-cased visible text
contains the keyword. -/
def textScan (keyword : String) (elements : List (String × String)) : Option String :=
  match elements with
  | [] => none
  | (text, el) :: rest =>
    if strContains (pyLower text) keyword then some el else textScan keyword rest

/-- The complete element-locator policy of lines 97-120: try the strategies in
priority order, and only if all of them miss fall back to the text scan. -/
def locate_element (outcomes : List (Except String (Option String)))
    (fallbackElements : List (String × String)) (keyword : String) : Option String :=
  match locateFirst outcomes with
  | some e => some e
  | none => textScan keyword fallbackElements

/-- The convert-button fallback of lines 397-406: scan the page buttons; a
`none` entry is a button whose `inner_text()` raised (skipped by the inner
`except: continue`); otherwise pick the first button whose lower-cased text
contains convert, download or start. -/
def convertButtonScan (buttons : List (Option String)) : Option String :=
  match buttons with
  | [] => none
  | none :: rest => convertButtonScan rest
  | some text :: rest =>
    let t := pyLower text
    if strContains t "convert" || strContains t "download" || strContains t "start" then
      some text
    else convertButtonScan rest

/-! ## Conversion progress monitor (lines 515-563) -/

/-- Why the poll loop of lines 535-552 exited. -/
inductive PollExit where
  | indicatorGone
  | downloadFound
  | budgetExceeded
deriving Repr, DecidableEq

/-- The poll loop of lines 535-552: while less than 120 seconds have elapsed,
exit as soon as the progress indicator is not visible or a download element is
queryable, otherwise sleep 5 seconds and retry.  Time advances only through
the sleeps, so `vis` and `dl` are indexed by elapsed seconds.  Returns the
exit reason and the elapsed time at exit. -/
def pollLoop (vis dl : Nat → Bool) (elapsed : Nat) : PollExit × Nat :=
  if h : elapsed < 120 then
    if vis elapsed = false then (.indicatorGone, elapsed)
    else if dl elapsed then (.downloadFound, elapsed)
    else pollLoop vis dl (elapsed + 5)
  else (.budgetExceeded, elapsed)
termination_by 120 - elapsed
decreasing_by omega

/-- Result of the whole wait-for-conversion monitor of lines 515-563. -/
inductive MonitorResult where
  | polled (exit : PollExit) (elapsed : Nat)
  | fixedSleep (seconds : Nat)
deriving Repr, DecidableEq

/-- Lines 515-563 reduced to their timing behaviour: with a progress indicator
found, run the bounded poll loop from zero elapsed time; with none, perform
the single fixed 60-second sleep of line 561. -/
def conversionMonitor (indicatorFound : Bool) (vis dl : Nat → Bool) : MonitorResult :=
  if indicatorFound then
    let r := pollLoop vis dl 0
    .polled r.1 r.2
  else .fixedSleep 60

/-! ## Data model (models/test_result.py) -/

/-- `TestStep` (models/test_result.py lines 6-23).  The creation timestamp is
not modelled (no claim mentions per-step timestamps); metadata only ever holds
the `ocr_text` key, so it is a string-to-string association list. -/
structure TestStep where
  name : String
  status : String
  screenshot_path : Option String := none
  error_message : Option String := none
  metadata : List (String × String) := []
deriving Repr, DecidableEq

/-- `TestResult` (models/test_result.py lines 26-44), with `datetime` modelled
as natural-number ticks of a clock. -/
structure TestResult where
  test_name : String
  youtube_url : String
  format_type : String := "mp4"
  steps : List TestStep := []
  start_time : Nat := 0
  end_time : Option Nat := none
  overall_status : String := "pending"
  analysis : Option String := none
  troubleshooting : Option String := none
  video_path : Option String := none
deriving Repr, DecidableEq

/-- `TestResult.add_step`: append, never reorder. -/
def TestResult.add_step (r : TestResult) (s : TestStep) : TestResult :=
  { r with steps := r.steps ++ [s] }

/-- `TestResult.complete`: record the current clock and the terminal status. -/
def TestResult.complete (r : TestResult) (status : String) (now : Nat) : TestResult :=
  { r with end_time := some now, overall_status := status }

instance (ε α : Type) [DecidableEq ε] [DecidableEq α] : DecidableEq (Except ε α) :=
  fun x y =>
    match x, y with
    | .ok a, .ok b => decidable_of_iff (a = b) (by simp)
    | .error a, .error b => decidable_of_iff (a = b) (by simp)
    | .ok _, .error _ => isFalse (by simp)
    | .error _, .ok _ => isFalse (by simp)

/-! ## The orchestrated run (tests/youtube_converter_test.py)

Each checkpoint is a function from its environment and the current state to
the new state plus an optional re-raised exception message.  The state threads
the `TestResult` under construction, the value of the local `screenshot_path`
variable (which checkpoint 3 reads without assigning), and the trace of
interactions performed on a located prompt-input element (checkpoint 3). -/

/-- Classifier verdict as the checkpoints read it: `err` is the truthiness of
`result.get("error", False)` on the parsed dictionary, `msg` the value of
`result.get("message", ...)` when the key is present. -/
structure Verdict where
  err : Bool
  msg : Option String := none
deriving Repr, DecidableEq

/-- Local state threaded through the checkpoints. -/
structure CpState where
  result : TestResult
  shot : String := ""
  actions : List String := []
deriving Repr, DecidableEq

/-- Environment of checkpoint 1 (navigate, lines 19-71). `pre_exc` is an
exception from `page.goto` / `wait_for_load_state` / `take_screenshot`. -/
structure NavEnv where
  pre_exc : Option String := none
  shot : String := ""
  ocr : String := ""
  verdict : Verdict := { err := false }
deriving Repr, DecidableEq

/-- Checkpoint 1, `navigate_to_site` (lines 19-71).  When the classifier gate
reports an error, the body first appends an error step carrying the classifier
message and screenshot, then raises; that raise is caught by the same
checkpoint boundary handler (lines 66-71), which appends a second error step
(with no screenshot) before re-raising. -/
def checkpoint1 (e : NavEnv) (st : CpState) : CpState × Option String :=
  match e.pre_exc with
  | some m =>
    let step : TestStep :=
      { name := "navigate_to_site", status := "error", error_message := some m }
    ({ st with result := st.result.add_step step }, some m)
  | none =>
    let md := [("ocr_text", e.ocr)]
    if e.verdict.err then
      let m := e.verdict.msg.getD "Unknown error detected in OCR text"
      let gateStep : TestStep :=
        { name := "navigate_to_site", status := "error", error_message := some m,
          screenshot_path := some e.shot, metadata := md }
      let raised := "Navigation error: " ++ m
      let handlerStep : TestStep :=
        { name := "navigate_to_site", status := "error", error_message := some raised }
      ({ st with result := (st.result.add_step gateStep).add_step handlerStep,
                 shot := e.shot }, some raised)
    else
      let step : TestStep :=
        { name := "navigate_to_site", status := "success",
          screenshot_path := some e.shot, metadata := md }
      ({ st with result := st.result.add_step step, shot := e.shot }, none)

/-- Environment of checkpoint 2 (click the URL link, lines 73-181). -/
structure ClickUrlEnv where
  pre_exc : Option String := none
  selectors : List (Except String (Option String)) := []
  fallback : List (String × String) := []
  shot : Except String String := .ok ""
  handler_shot : Except String String := .ok ""
deriving Repr, DecidableEq

/-- The boundary handler of checkpoint 2 (lines 169-181): it calls
`take_screenshot` inline inside the `TestStep` constructor; if that capture
itself raises, the error step is never appended and the capture exception
propagates instead of the original one. -/
def cp2_handler (e : ClickUrlEnv) (st : CpState) (m : String) : CpState × Option String :=
  match e.handler_shot with
  | .error m2 => (st, some m2)
  | .ok p =>
    let step : TestStep :=
      { name := "click_url_link", status := "error", error_message := some m,
        screenshot_path := some p }
    ({ st with result := st.result.add_step step }, some m)

/-- Checkpoint 2, `click_url_link` (lines 73-181).  The dialog handler that
will deliver the YouTube URL is registered here (`page.once`, line 137); the
dispatched click is wrapped in its own inner `try` whose failure is only
logged (lines 140-157), so it has no observable effect on the result. -/
def checkpoint2 (e : ClickUrlEnv) (st : CpState) : CpState × Option String :=
  match e.pre_exc with
  | some m => cp2_handler e st m
  | none =>
    match locate_element e.selectors e.fallback "url" with
    | none => cp2_handler e st "Could not find URL link element"
    | some _ =>
      match e.shot with
      | .error m => cp2_handler e st m
      | .ok p =>
        let step : TestStep :=
          { name := "click_url_link", status := "success", screenshot_path := some p }
        ({ st with result := st.result.add_step step, shot := p }, none)

/-- Environment of checkpoint 3 (input the YouTube URL, lines 183-255). -/
structure InputUrlEnv where
  eval_exc : Option String := none
  input_field_needed : Bool := false
  handler_shot : Except String String := .ok ""
deriving Repr, DecidableEq

/-- Checkpoint 3, `input_youtube_url` (lines 183-255).  The selector list of
lines 203-217 is built but never queried: `prompt_input` is assigned `None` at
line 219 and the focus/click/fill/type block is guarded by `if prompt_input:`,
so no page input field is ever touched.  The success step reuses the outer
`screenshot_path` variable, last assigned by checkpoint 2 at line 160. -/
def checkpoint3 (e : InputUrlEnv) (st : CpState) : CpState × Option String :=
  match e.eval_exc with
  | some m =>
    match e.handler_shot with
    | .error m2 => (st, some m2)
    | .ok p =>
      let step : TestStep :=
        { name := "input_youtube_url", status := "error", error_message := some m,
          screenshot_path := some p }
      ({ st with result := st.result.add_step step }, some m)
  | none =>
    let acts :=
      if e.input_field_needed then
        let prompt_input : Option String := none
        match prompt_input with
        | some _ => ["focus", "click", "fill", "type"]
        | none => []
      else []
    let step : TestStep :=
      { name := "input_youtube_url", status := "success",
        screenshot_path := some st.shot }
    ({ st with actions := st.actions ++ acts,
               result := st.result.add_step step }, none)

/-- Environment of checkpoint 4 (select MP4 format, lines 257-332). -/
structure FormatEnv where
  pre_exc : Option String := none
  selectors : List (Except String (Option String)) := []
  click_exc : Option String := none
  mp4_selectors : List (Except String (Option String)) := []
  shot : Except String String := .ok ""
  handler_shot : Except String String := .ok ""
deriving Repr, DecidableEq

/-- The soft handler of checkpoint 4 (lines 318-332): append a warning step
and do not re-raise; but the warning screenshot is again taken inline, so a
capture failure there propagates and skips the step. -/
def cp4_handler (e : FormatEnv) (st : CpState) : CpState × Option String :=
  match e.handler_shot with
  | .error m2 => (st, some m2)
  | .ok p =>
    let step : TestStep :=
      { name := "select_mp4_format", status := "warning",
        error_message := some "Could not explicitly select MP4 format, may be using default",
        screenshot_path := some p }
    ({ st with result := st.result.add_step step }, none)

/-- The tail of checkpoint 4 (lines 309-317): screenshot then success step,
reached both when a format selector was clicked and when none matched. -/
def cp4_after (e : FormatEnv) (st : CpState) : CpState × Option String :=
  match e.shot with
  | .error _ => cp4_handler e st
  | .ok p =>
    let step : TestStep :=
      { name := "select_mp4_format", status := "success", screenshot_path := some p }
    ({ st with result := st.result.add_step step, shot := p }, none)

/-- Checkpoint 4, `select_mp4_format` (lines 257-332).  Finding no format
selector is not treated as a failure: control falls through to the success
step.  The inner MP4-option loop (lines 299-307) wraps both the wait and the
click in `try ... except: continue`, so its exceptions never escape. -/
def checkpoint4 (e : FormatEnv) (st : CpState) : CpState × Option String :=
  match e.pre_exc with
  | some _ => cp4_handler e st
  | none =>
    match locateFirst e.selectors with
    | some _ =>
      match e.click_exc with
      | some _ => cp4_handler e st
      | none =>
        let _mp4 := locateFirst e.mp4_selectors
        cp4_after e st
    | none => cp4_after e st

/-- Environment of checkpoint 5 (click convert, lines 334-481).  `shot1` is
the pre-convert screenshot of line 342 (a raise of the preceding sleep or of
the capture lands in the same handler); `fallback_buttons` gives the page
buttons with `none` for a button whose `inner_text()` raised. -/
structure ConvertEnv where
  shot1 : Except String String := .ok ""
  ocr : String := ""
  verdict : Verdict := { err := false }
  selectors : List (Except String (Option String)) := []
  fallback_buttons : List (Option String) := []
  click_exc : Option String := none
  shot2 : Except String String := .ok ""
  js_exc : Option String := none
  js_result : Bool := false
  notfound_shot_exc : Option String := none
  handler_shot : Except String String := .ok ""
deriving Repr, DecidableEq

/-- The boundary handler of checkpoint 5 (lines 469-481): error step named
`click_convert_button` with an inline screenshot, then re-raise; the inline
capture raising skips the step and masks the original exception. -/
def cp5_handler (e : ConvertEnv) (st : CpState) (m : String) : CpState × Option String :=
  match e.handler_shot with
  | .error m2 => (st, some m2)
  | .ok p =>
    let step : TestStep :=
      { name := "click_convert_button", status := "error", error_message := some m,
        screenshot_path := some p }
    ({ st with result := st.result.add_step step }, some m)

/-- The success tail of checkpoint 5 (lines 408-424 and 453-465): click (or
JavaScript trigger) already done, take the screenshot and append the success
step carrying the pre-convert OCR metadata. -/
def cp5_success (e : ConvertEnv) (st : CpState) (md : List (String × String)) :
    CpState × Option String :=
  match e.shot2 with
  | .error m => cp5_handler e st m
  | .ok p =>
    let step : TestStep :=
      { name := "click_convert_button", status := "success",
        screenshot_path := some p, metadata := md }
    ({ st with result := st.result.add_step step, shot := p }, none)

/-- The classifier-gate branch of checkpoint 5 (lines 354-372): append the
`before_convert_button` error step carrying the classifier message, then raise
`Pre-conversion error: ...`; the raise is caught by the same checkpoint
boundary (line 469), modelled by the `cp5_handler` call. -/
def cp5_gate (e : ConvertEnv) (st : CpState) (p1 : String) : CpState × Option String :=
  let m := e.verdict.msg.getD "Unknown error detected in OCR text"
  let gateStep : TestStep :=
    { name := "before_convert_button", status := "error", error_message := some m,
      screenshot_path := some p1, metadata := [("ocr_text", e.ocr)] }
  cp5_handler e { st with result := st.result.add_step gateStep }
    ("Pre-conversion error: " ++ m)

/-- The button-finding part of checkpoint 5 (lines 374-468): the priority
selector loop with the text-scan fallback, then click / JavaScript trigger /
`Could not find convert button`. -/
def cp5_find (e : ConvertEnv) (st : CpState) : CpState × Option String :=
  match (match locateFirst e.selectors with
         | some b => some b
         | none => convertButtonScan e.fallback_buttons) with
  | some _ =>
    match e.click_exc with
    | some m => cp5_handler e st m
    | none => cp5_success e st [("ocr_text", e.ocr)]
  | none =>
    match e.js_exc with
    | some m => cp5_handler e st m
    | none =>
      if e.js_result then cp5_success e st [("ocr_text", e.ocr)]
      else
        match e.notfound_shot_exc with
        | some m => cp5_handler e st m
        | none => cp5_handler e st "Could not find convert button"

/-- Checkpoint 5, `click_convert_button` (lines 334-481).  The pre-convert
classifier gate appends an error step and raises; that raise is caught by this
same checkpoint boundary, which appends a second error step before
re-raising.  The `screenshot_path` local is assigned at line 342, before the
gate. -/
def checkpoint5 (e : ConvertEnv) (st : CpState) : CpState × Option String :=
  match e.shot1 with
  | .error m => cp5_handler e st m
  | .ok p1 =>
    if e.verdict.err then cp5_gate e { st with shot := p1 } p1
    else cp5_find e { st with shot := p1 }

/-- Environment of checkpoint 6 (wait for conversion, lines 483-588).
`pre_exc` is a raise of the `networkidle` wait at line 488 (which, unlike the
progress polling, escalates to an error step). -/
structure WaitEnv where
  pre_exc : Option String := none
  selectors : List (Except String (Option String)) := []
  prog_shot : Except String String := .ok ""
  final_shot : Except String String := .ok ""
  handler_shot : Except String String := .ok ""
deriving Repr, DecidableEq

/-- The boundary handler of checkpoint 6 (lines 576-588). -/
def cp6_handler (e : WaitEnv) (st : CpState) (m : String) : CpState × Option String :=
  match e.handler_shot with
  | .error m2 => (st, some m2)
  | .ok p =>
    let step : TestStep :=
      { name := "wait_for_conversion", status := "error", error_message := some m,
        screenshot_path := some p } 
    ({ st with result := st.result.add_step step }, some m)

/-- The tail of checkpoint 6 (lines 565-575): the completion screenshot and
the success step, reached however the monitoring went. -/
def cp6_finish (e : WaitEnv) (st : CpState) : CpState × Option String :=
  match e.final_shot with
  | .error m => cp6_handler e st m
  | .ok p =>
    let step : TestStep :=
      { name := "wait_for_conversion", status := "success", screenshot_path := some p }
    ({ st with result := st.result.add_step step, shot := p }, none)

/-- Checkpoint 6, `wait_for_conversion` (lines 483-588).  The poll loop of
lines 528-558 (modelled separately by `pollLoop` / `conversionMonitor`) only
consumes time: its exit reason is never consulted, and any exception inside it
is caught by the inner handler of lines 555-558 and merely logged, so the
monitoring leaves no trace on the `TestResult` and the run always proceeds to
the completion screenshot; likewise the fixed 60-second sleep of line 561. -/
def checkpoint6 (e : WaitEnv) (st : CpState) : CpState × Option String :=
  match e.pre_exc with
  | some m => cp6_handler e st m
  | none =>
    match locateFirst e.selectors with
    | some _ =>
      match e.prog_shot with
      | .error m => cp6_handler e st m
      | .ok p =>
        let step : TestStep :=
          { name := "conversion_in_progress", status := "success",
            screenshot_path := some p }
        let st := { st with result := st.result.add_step step, shot := p }
        cp6_finish e st
    | none => cp6_finish e st

/-- Environment of checkpoint 7 (check download availability, lines 590-752).
`download_available` is the truthiness of `final_result.get("download_available",
False)`; the three selector scans are summarized by whether any of their
selectors found a visible element; `error_text` is the `inner_text()` call on
the first visible error element. -/
structure FinalEnv where
  pre_exc : Option String := none
  shot : Except String String := .ok ""
  ocr : String := ""
  verdict : Verdict := { err := false }
  download_available : Bool := false
  dl_button_found : Bool := false
  success_msg_found : Bool := false
  error_elem_found : Bool := false
  error_text : Except String String := .ok ""
  analysis : String := "No analysis available"
  troubleshooting : String := "No troubleshooting recommendations available"
  handler_shot : Except String String := .ok ""
deriving Repr, DecidableEq

/-- The boundary handler of checkpoint 7 (lines 739-752): an error step is
appended only when the message does not contain `Conversion failed`; the
exception is re-raised either way. -/
def cp7_handler (e : FinalEnv) (st : CpState) (m : String) : CpState × Option String :=
  if strContains m "Conversion failed" then (st, some m)
  else
    match e.handler_shot with
    | .error m2 => (st, some m2)
    | .ok p =>
      let step : TestStep :=
        { name := "check_download_availability", status := "error",
          error_message := some m, screenshot_path := some p }
      ({ st with result := st.result.add_step step }, some m)

/-- The closing part of checkpoint 7 (lines 699-737): success or warning step
depending on download availability, then the batch analysis call (which, like
the other classifier calls, never raises) populating the analysis fields. -/
def cp7_finish (e : FinalEnv) (st : CpState) (download_available : Bool) (p : String)
    (md : List (String × String)) : CpState × Option String :=
  let step : TestStep :=
    if download_available then
      { name := "check_download_availability", status := "success",
        screenshot_path := some p, metadata := md }
    else
      { name := "check_download_availability", status := "warning",
        error_message := some "No clear download button or success message found",
        screenshot_path := some p, metadata := md }
  -- line 723 reads `test_result.steps[0]` only after the append above, so the
  -- step list is never empty there and the read cannot raise; the batch
  -- analysis call never raises (same handler structure as the classifier) and
  -- its output arrives through the environment.
  let r := st.result.add_step step
  let r := { r with analysis := some e.analysis,
                    troubleshooting := some e.troubleshooting }
  ({ st with result := r, shot := p }, none)

/-- The final classifier-gate branch of checkpoint 7 (lines 611-625): append
a `failure` (not `error`) step with the classifier message, then raise
`Conversion failed: ...`; the boundary handler re-raises it without a further
step because the message contains `Conversion failed`. -/
def cp7_gate (e : FinalEnv) (st : CpState) (p : String) : CpState × Option String :=
  let m := e.verdict.msg.getD "Unknown error detected in OCR text"
  let gateStep : TestStep :=
    { name := "check_download_availability", status := "failure", error_message := some m,
      screenshot_path := some p, metadata := [("ocr_text", e.ocr)] }
  cp7_handler e { st with result := st.result.add_step gateStep, shot := p }
    ("Conversion failed: " ++ m)

/-- The error-selector scan of checkpoint 7 (lines 668-697): with a visible
error element, the inner `try` wraps the `inner_text()` call, the failure step
and the `raise Conversion failed: <text>` itself, so its `except` always turns
the outcome into `Conversion failed with unspecified error` (skipping the
failure step when `inner_text()` raised). -/
def cp7_error_scan (e : FinalEnv) (st : CpState) (p : String) : CpState × Option String :=
  match e.error_text with
  | .ok t =>
    let failStep : TestStep :=
      { name := "check_download_availability", status := "failure", error_message := some t,
        screenshot_path := some p, metadata := [("ocr_text", e.ocr)] }
    cp7_handler e { st with result := st.result.add_step failStep, shot := p }
      "Conversion failed with unspecified error"
  | .error _ =>
    cp7_handler e { st with shot := p } "Conversion failed with unspecified error"

/-- Checkpoint 7, `check_download_availability` (lines 590-752).  The manual
download-button and success-message scans (lines 630-666) and the
error-selector scan all run only when the classifier verdict did not already
report download availability. -/
def checkpoint7 (e : FinalEnv) (st : CpState) : CpState × Option String :=
  match e.pre_exc with
  | some m => cp7_handler e st m
  | none =>
    match e.shot with
    | .error m => cp7_handler e st m
    | .ok p =>
      if e.verdict.err then cp7_gate e st p
      else
        if e.download_available then cp7_finish e st true p [("ocr_text", e.ocr)]
        else
          let dl := e.dl_button_found
          let dl := if dl then dl else e.success_msg_found
          if e.error_elem_found then cp7_error_scan e st p
          else cp7_finish e st dl p [("ocr_text", e.ocr)]

/-- The full environment of one run of
`run_standard_youtube_conversion_test`. -/
structure Env where
  nav : NavEnv := {}
  click : ClickUrlEnv := {}
  input : InputUrlEnv := {}
  format : FormatEnv := {}
  convert : ConvertEnv := {}
  wait : WaitEnv := {}
  final : FinalEnv := {}
deriving Repr, DecidableEq

/-- Sequential composition of checkpoints with the Python exception
semantics: a re-raised exception aborts the remaining checkpoints. -/
def runSeq : List (CpState → CpState × Option String) → CpState →
    CpState × Option String
  | [], st => (st, none)
  | f :: fs, st =>
    match f st with
    | (st2, some m) => (st2, some m)
    | (st2, none) => runSeq fs st2

/-- `run_standard_youtube_conversion_test` (lines 10-753): the seven
checkpoints in order; any exception re-raised by a checkpoint aborts the rest
of the body (checkpoint 4 re-raises only when its warning screenshot itself
fails). -/
def run_standard_youtube_conversion_test (env : Env) (r0 : TestResult) :
    TestResult × Option String :=
  let out := runSeq
    [checkpoint1 env.nav, checkpoint2 env.click, checkpoint3 env.input,
     checkpoint4 env.format, checkpoint5 env.convert, checkpoint6 env.wait,
     checkpoint7 env.final] { result := r0 }
  (out.1.result, out.2)

/-- The `TestResult` created at the start of `PlaywrightService.execute_test`
(services/playwright_service.py lines 93-98): empty step list, `pending`
status, start clock `t0`. -/
def initResult (test_name youtube_url : String) (t0 : Nat) : TestResult :=
  { test_name := test_name, youtube_url := youtube_url, steps := [], start_time := t0 }

/-- The error step appended by the `except` handler of `execute_test`
(lines 124-127). -/
def execFailStep (m : String) : TestStep :=
  { name := "test_execution_failed", status := "error", error_message := some m }

/-- Lines 104-107: the video path is stored on the result only when recording
is enabled and `create_page` produced a truthy path. -/
def startResult (test_name youtube_url : String) (t0 : Nat)
    (record_video : Bool) (video_path : String) : TestResult :=
  if record_video && !(video_path == "") then
    { initResult test_name youtube_url t0 with video_path := some video_path }
  else initResult test_name youtube_url t0

/-- Lines 109-130: a normal return of the test function completes the result
with `success`; a raised exception is caught (never re-raised), recorded as a
`test_execution_failed` error step, and the result completed with `error`. -/
def finishRun (t1 : Nat) (pr : TestResult × Option String) : TestResult :=
  match pr with
  | (r, none) => r.complete "success" t1
  | (r, some m) => (r.add_step (execFailStep m)).complete "error" t1

/-- `PlaywrightService.execute_test` (services/playwright_service.py lines
88-143).  `t0` is the clock at `TestResult` creation, `t1` the clock when
`complete` runs; `create_exc` is an exception raised by `create_page` (also
caught by the `except` handler).  The `finally` block only closes the browser
context, catching its own errors, and does not touch the result. -/
def execute_test (env : Env) (test_name youtube_url : String)
    (record_video : Bool) (video_path : String) (create_exc : Option String)
    (t0 t1 : Nat) : TestResult :=
  match create_exc with
  | some m =>
    ((initResult test_name youtube_url t0).add_step (execFailStep m)).complete "error" t1
  | none =>
    finishRun t1 (run_standard_youtube_conversion_test env
      (startResult test_name youtube_url t0 record_video video_path))

/-! ## Concrete run environments used as test vectors -/

/-- A starting checkpoint state with an empty result. -/
def stInit : CpState :=
  { result := { test_name := "youtube_converter",
                youtube_url := "https://www.youtube.com/watch?v=demo" } }

/-- The environment of end-to-end scenario B: checkpoints 1-4 succeed, then
the pre-convert classifier gate reports an error with message `m`. -/
def gateEnv (m : String) : Env :=
  { nav := { shot := "site_navigation.png", ocr := "Convert video online" },
    click := { selectors := [.ok (some "a#open_link")], shot := .ok "click_url_link.png" },
    format := { shot := .ok "select_format.png" },
    convert := { shot1 := .ok "before_convert_click.png", ocr := "page text",
                 verdict := { err := true, msg := some m },
                 handler_shot := .ok "convert_button_error.png" } }

/-- The Test Result of scenario B with classifier message `Conversion failed`. -/
def resultB : TestResult :=
  execute_test (gateEnv "Conversion failed") "youtube_converter"
    "https://www.youtube.com/watch?v=demo" false "" none 0 9

/-- A format-selection environment in which no selector matches at all and
nothing raises. -/
def fmtMissEnv : FormatEnv :=
  { selectors := [.error "Timeout 2000ms exceeded", .ok none],
    shot := .ok "select_format.png" }

/-- A click-url-link environment in which the body fails (no locator match)
and the screenshot taken inside the `except` handler itself raises. -/
def c9Env : ClickUrlEnv :=
  { selectors := [.error "Timeout 3000ms exceeded"],
    shot := .ok "click_url_link.png",
    handler_shot := .error "Page.screenshot: target page has been closed" }

/-- What every checkpoint does to the threaded result: it leaves the timing
and status fields alone, only appends to the step list, and, whenever it does
not re-raise, every step it appended has a status other than `error`. -/
def ResultShape (st : CpState) (out : CpState × Option String) : Prop :=
  out.1.result.start_time = st.result.start_time ∧
  out.1.result.end_time = st.result.end_time ∧
  out.1.result.overall_status = st.result.overall_status ∧
  (out.2 = none → ∀ s ∈ out.1.result.steps, s ∈ st.result.steps ∨ s.status ≠ "error")


/-- `c9Env` with a succeeding handler screenshot. -/
def c9EnvOk : ClickUrlEnv := { c9Env with handler_shot := .ok "url_link_error.png" }

/-- A format-selection environment whose body raises at the page wait and
whose warning screenshot succeeds. -/
def fmtFailEnv : FormatEnv :=
  { pre_exc := some "Timeout 10000ms exceeded",
    handler_shot := .ok "select_format_warning.png" }

/-- The warning step recorded by the soft handler of checkpoint 4 with
screenshot path `p`. -/
def cp4_warn_step (p : String) : TestStep :=
  { name := "select_mp4_format", status := "warning",
    error_message := some "Could not explicitly select MP4 format, may be using default",
    screenshot_path := some p }

/-- A wait-for-conversion environment whose body raises at the page wait and
whose handler screenshot succeeds. -/
def waitFailEnv : WaitEnv :=
  { pre_exc := some "Timeout 10000ms exceeded",
    handler_shot := .ok "conversion_error.png" }

/-- The error step recorded by the boundary handler of checkpoint 6. -/
def cp6_fail_step (m p : String) : TestStep :=
  { name := "wait_for_conversion", status := "error", error_message := some m,
    screenshot_path := some p }

/-- The error step recorded by the boundary handler of checkpoint 1
(lines 66-71; this handler takes no screenshot). -/
def cp1_fail_step (m : String) : TestStep :=
  { name := "navigate_to_site", status := "error", error_message := some m }

/-- The error step recorded by the boundary handler of checkpoint 2. -/
def cp2_fail_step (m p : String) : TestStep :=
  { name := "click_url_link", status := "error", error_message := some m,
    screenshot_path := some p }

/-- The error step recorded by the boundary handler of checkpoint 3. -/
def cp3_fail_step (m p : String) : TestStep :=
  { name := "input_youtube_url", status := "error", error_message := some m,
    screenshot_path := some p }

/-- The error step recorded by the boundary handler of checkpoint 5. -/
def cp5_fail_step (m p : String) : TestStep :=
  { name := "click_convert_button", status := "error", error_message := some m,
    screenshot_path := some p }

/-- The error step recorded by the boundary handler of checkpoint 7 when the
message does not contain `Conversion failed`. -/
def cp7_fail_step (m p : String) : TestStep :=
  { name := "check_download_availability", status := "error",
    error_message := some m, screenshot_path := some p }

/-- A verify-download environment whose handler screenshot succeeds. -/
def finalFailEnv : FinalEnv := { handler_shot := .ok "download_check_error.png" }

/-! ## Structural lemmas about the checkpoints -/


lemma shape_trans {st st2 : CpState} {out : CpState × Option String}
    (h1 : st2.result.start_time = st.result.start_time)
    (h2 : st2.result.end_time = st.result.end_time)
    (h3 : st2.result.overall_status = st.result.overall_status)
    (h4 : out.2 = none → ∀ s ∈ st2.result.steps, s ∈ st.result.steps ∨ s.status ≠ "error")
    (h : ResultShape st2 out) : ResultShape st out := by
  obtain ⟨ht, he, ho, hm⟩ := h
  refine ⟨ht.trans h1, he.trans h2, ho.trans h3, ?_⟩
  intro hx s hs
  rcases hm hx s hs with h' | h'
  · exact h4 hx s h'
  · exact Or.inr h'

lemma cp1_shape (e : NavEnv) (st : CpState) : ResultShape st (checkpoint1 e st) := by
  unfold ResultShape checkpoint1 TestResult.add_step
  cases hp : e.pre_exc with
  | some m => simp
  | none =>
    cases hv : e.verdict.err with
    | true => simp
    | false =>
      refine ⟨rfl, rfl, rfl, ?_⟩
      intro _ s hs
      rcases List.mem_append.mp hs with h' | h'
      · exact Or.inl h'
      · rw [List.mem_singleton] at h'
        subst h'
        exact Or.inr (show ("success" : String) ≠ "error" by decide)

lemma mem_append_step {old : List TestStep} {s step : TestStep}
    (hstep : step.status ≠ "error") (hs : s ∈ old ++ [step]) :
    s ∈ old ∨ s.status ≠ "error" := by
  rcases List.mem_append.mp hs with h' | h'
  · exact Or.inl h'
  · rw [List.mem_singleton] at h'
    subst h'
    exact Or.inr hstep

lemma cp2_handler_shape (e : ClickUrlEnv) (st : CpState) (m : String) :
    ResultShape st (cp2_handler e st m) ∧ (cp2_handler e st m).2 ≠ none := by
  unfold ResultShape cp2_handler TestResult.add_step
  cases hs : e.handler_shot <;> simp

lemma cp2_shape (e : ClickUrlEnv) (st : CpState) : ResultShape st (checkpoint2 e st) := by
  unfold checkpoint2
  cases hp : e.pre_exc with
  | some m => exact (cp2_handler_shape e st m).1
  | none =>
    cases hl : locate_element e.selectors e.fallback "url" with
    | none => exact (cp2_handler_shape e st _).1
    | some el =>
      cases hsh : e.shot with
      | error m => exact (cp2_handler_shape e st m).1
      | ok p =>
        exact ⟨rfl, rfl, rfl, fun _ s hs =>
          mem_append_step (show ("success" : String) ≠ "error" by decide) hs⟩

lemma cp3_shape (e : InputUrlEnv) (st : CpState) : ResultShape st (checkpoint3 e st) := by
  unfold checkpoint3
  cases hp : e.eval_exc with
  | some m =>
    cases hs : e.handler_shot <;>
      exact ⟨rfl, rfl, rfl, by simp⟩
  | none =>
    exact ⟨rfl, rfl, rfl, fun _ s hs =>
      mem_append_step (show ("success" : String) ≠ "error" by decide) hs⟩

lemma cp4_handler_shape (e : FormatEnv) (st : CpState) :
    ResultShape st (cp4_handler e st) := by
  unfold ResultShape cp4_handler TestResult.add_step
  cases hs : e.handler_shot with
  | error m2 => simp
  | ok p =>
    refine ⟨rfl, rfl, rfl, ?_⟩
    intro _ s hs
    exact mem_append_step (show ("warning" : String) ≠ "error" by decide) hs

lemma cp4_after_shape (e : FormatEnv) (st : CpState) :
    ResultShape st (cp4_after e st) := by
  unfold cp4_after
  cases hsh : e.shot with
  | error m => exact cp4_handler_shape e st
  | ok p =>
    exact ⟨rfl, rfl, rfl, fun _ s hs =>
      mem_append_step (show ("success" : String) ≠ "error" by decide) hs⟩

lemma cp4_shape (e : FormatEnv) (st : CpState) : ResultShape st (checkpoint4 e st) := by
  unfold checkpoint4
  cases hp : e.pre_exc with
  | some m => exact cp4_handler_shape e st
  | none =>
    cases hl : locateFirst e.selectors with
    | none => exact cp4_after_shape e st
    | some b =>
      cases hc : e.click_exc with
      | some m => exact cp4_handler_shape e st
      | none => exact cp4_after_shape e st

lemma cp5_handler_shape (e : ConvertEnv) (st : CpState) (m : String) :
    ResultShape st (cp5_handler e st m) ∧ (cp5_handler e st m).2 ≠ none := by
  unfold ResultShape cp5_handler TestResult.add_step
  cases hs : e.handler_shot <;> simp

lemma cp5_success_shape (e : ConvertEnv) (st : CpState) (md : List (String × String)) :
    ResultShape st (cp5_success e st md) := by
  unfold cp5_success
  cases hsh : e.shot2 with
  | error m => exact (cp5_handler_shape e st m).1
  | ok p =>
    exact ⟨rfl, rfl, rfl, fun _ s hs =>
      mem_append_step (show ("success" : String) ≠ "error" by decide) hs⟩

lemma cp5_gate_shape (e : ConvertEnv) (st : CpState) (p1 : String) :
    ResultShape st (cp5_gate e st p1) ∧ (cp5_gate e st p1).2 ≠ none := by
  unfold cp5_gate
  constructor
  · refine shape_trans ?_ ?_ ?_ ?_ (cp5_handler_shape e _ _).1
    · rfl
    · rfl
    · rfl
    · intro hx
      exact absurd hx (cp5_handler_shape e _ _).2
  · exact (cp5_handler_shape e _ _).2

lemma cp5_find_shape (e : ConvertEnv) (st : CpState) : ResultShape st (cp5_find e st) := by
  unfold cp5_find
  cases hb :
      (match locateFirst e.selectors with
       | some b => some b
       | none => convertButtonScan e.fallback_buttons) with
  | some b =>
    cases hc : e.click_exc with
    | some m => exact (cp5_handler_shape e st m).1
    | none => exact cp5_success_shape e st _
  | none =>
    cases hj : e.js_exc with
    | some m => exact (cp5_handler_shape e st m).1
    | none =>
      cases hr : e.js_result with
      | true => simpa using cp5_success_shape e st _
      | false =>
        cases hn : e.notfound_shot_exc with
        | some m => simpa using (cp5_handler_shape e st m).1
        | none => simpa using (cp5_handler_shape e st _).1

lemma shape_shot {st : CpState} {out : CpState × Option String} {p : String}
    (h : ResultShape { st with shot := p } out) : ResultShape st out := by
  refine shape_trans ?_ ?_ ?_ ?_ h
  · rfl
  · rfl
  · rfl
  · exact fun _ s hs => Or.inl hs

lemma cp5_shape (e : ConvertEnv) (st : CpState) : ResultShape st (checkpoint5 e st) := by
  unfold checkpoint5
  cases hsh : e.shot1 with
  | error m => exact (cp5_handler_shape e st m).1
  | ok p1 =>
    cases hv : e.verdict.err with
    | true => simpa [hv] using shape_shot ((cp5_gate_shape e { st with shot := p1 } p1).1)
    | false => simpa [hv] using shape_shot (cp5_find_shape e { st with shot := p1 })

lemma cp6_handler_shape (e : WaitEnv) (st : CpState) (m : String) :
    ResultShape st (cp6_handler e st m) ∧ (cp6_handler e st m).2 ≠ none := by
  unfold ResultShape cp6_handler TestResult.add_step
  cases hs : e.handler_shot <;> simp

lemma cp6_finish_shape (e : WaitEnv) (st : CpState) : ResultShape st (cp6_finish e st) := by
  unfold cp6_finish
  cases hsh : e.final_shot with
  | error m => exact (cp6_handler_shape e st m).1
  | ok p =>
    exact ⟨rfl, rfl, rfl, fun _ s hs =>
      mem_append_step (show ("success" : String) ≠ "error" by decide) hs⟩

lemma cp6_shape (e : WaitEnv) (st : CpState) : ResultShape st (checkpoint6 e st) := by
  unfold checkpoint6
  cases hp : e.pre_exc with
  | some m => exact (cp6_handler_shape e st m).1
  | none =>
    cases hl : locateFirst e.selectors with
    | none => exact cp6_finish_shape e st
    | some b =>
      cases hsh : e.prog_shot with
      | error m => exact (cp6_handler_shape e st m).1
      | ok p =>
        refine shape_trans ?_ ?_ ?_ ?_ (cp6_finish_shape e _)
        · rfl
        · rfl
        · rfl
        · intro _ s hs
          exact mem_append_step (show ("success" : String) ≠ "error" by decide) hs

lemma cp7_handler_shape (e : FinalEnv) (st : CpState) (m : String) :
    ResultShape st (cp7_handler e st m) ∧ (cp7_handler e st m).2 ≠ none := by
  unfold ResultShape cp7_handler TestResult.add_step
  cases hc : strContains m "Conversion failed" <;> cases hs : e.handler_shot <;> simp

lemma cp7_finish_shape (e : FinalEnv) (st : CpState) (dl : Bool) (p : String)
    (md : List (String × String)) : ResultShape st (cp7_finish e st dl p md) := by
  unfold cp7_finish
  refine ⟨rfl, rfl, rfl, ?_⟩
  intro _ s hs
  simp only [TestResult.add_step] at hs
  cases hdl : dl with
  | true =>
    rw [hdl, if_pos rfl] at hs
    exact mem_append_step (show ("success" : String) ≠ "error" by decide) hs
  | false =>
    rw [hdl] at hs
    rw [if_neg (by decide)] at hs
    exact mem_append_step (show ("warning" : String) ≠ "error" by decide) hs

lemma cp7_gate_shape (e : FinalEnv) (st : CpState) (p : String) :
    ResultShape st (cp7_gate e st p) ∧ (cp7_gate e st p).2 ≠ none := by
  unfold cp7_gate
  constructor
  · refine shape_trans ?_ ?_ ?_ ?_ (cp7_handler_shape e _ _).1
    · rfl
    · rfl
    · rfl
    · intro hx
      exact absurd hx (cp7_handler_shape e _ _).2
  · exact (cp7_handler_shape e _ _).2

lemma cp7_error_scan_shape (e : FinalEnv) (st : CpState) (p : String) :
    ResultShape st (cp7_error_scan e st p) := by
  unfold cp7_error_scan
  cases ht : e.error_text with
  | ok t =>
    refine shape_trans ?_ ?_ ?_ ?_ (cp7_handler_shape e _ _).1
    · rfl
    · rfl
    · rfl
    · intro hx
      exact absurd hx (cp7_handler_shape e _ _).2
  | error m => exact shape_shot (cp7_handler_shape e _ _).1

lemma cp7_shape (e : FinalEnv) (st : CpState) : ResultShape st (checkpoint7 e st) := by
  unfold checkpoint7
  cases hp : e.pre_exc with
  | some m => exact (cp7_handler_shape e st m).1
  | none =>
    cases hsh : e.shot with
    | error m => exact (cp7_handler_shape e st m).1
    | ok p =>
      cases hv : e.verdict.err with
      | true => simpa using (cp7_gate_shape e st p).1
      | false =>
        cases hd : e.download_available with
        | true => simpa using cp7_finish_shape e st true p _
        | false =>
          cases hee : e.error_elem_found with
          | true => simpa using cp7_error_scan_shape e st p
          | false => simpa using cp7_finish_shape e st _ p _

lemma runSeq_shape (fs : List (CpState → CpState × Option String)) :
    ∀ st : CpState, (∀ f ∈ fs, ∀ st2, ResultShape st2 (f st2)) →
      ResultShape st (runSeq fs st) := by
  induction fs with
  | nil =>
    intro st _
    exact ⟨rfl, rfl, rfl, fun _ s hs => Or.inl hs⟩
  | cons f rest ih =>
    intro st h
    unfold runSeq
    rcases hf : f st with ⟨st2, exc⟩
    have hshape := h f (List.mem_cons_self f rest) st
    rw [hf] at hshape
    cases exc with
    | some m => simpa using hshape
    | none =>
      have hrest := ih st2 (fun g hg => h g (List.mem_cons_of_mem f hg))
      refine shape_trans hshape.1 hshape.2.1 hshape.2.2.1 ?_ hrest
      intro _ s hs
      exact hshape.2.2.2 rfl s hs

lemma run_shape (env : Env) (r0 : TestResult) :
    (run_standard_youtube_conversion_test env r0).1.start_time = r0.start_time ∧
    (run_standard_youtube_conversion_test env r0).1.end_time = r0.end_time ∧
    (run_standard_youtube_conversion_test env r0).1.overall_status = r0.overall_status ∧
    ((run_standard_youtube_conversion_test env r0).2 = none →
      ∀ s ∈ (run_standard_youtube_conversion_test env r0).1.steps,
        s ∈ r0.steps ∨ s.status ≠ "error") := by
  have hall : ∀ f ∈ [checkpoint1 env.nav, checkpoint2 env.click, checkpoint3 env.input,
      checkpoint4 env.format, checkpoint5 env.convert, checkpoint6 env.wait,
      checkpoint7 env.final], ∀ st2, ResultShape st2 (f st2) := by
    intro f hf st2
    simp only [List.mem_cons, List.not_mem_nil, or_false] at hf
    rcases hf with rfl | rfl | rfl | rfl | rfl | rfl | rfl
    · exact cp1_shape _ st2
    · exact cp2_shape _ st2
    · exact cp3_shape _ st2
    · exact cp4_shape _ st2
    · exact cp5_shape _ st2
    · exact cp6_shape _ st2
    · exact cp7_shape _ st2
  have h := runSeq_shape _ { result := r0 } hall
  exact ⟨h.1, h.2.1, h.2.2.1, h.2.2.2⟩

lemma startResult_start (tn yu : String) (t0 : Nat) (rv : Bool) (vp : String) :
    (startResult tn yu t0 rv vp).start_time = t0 := by
  unfold startResult initResult
  split <;> rfl

lemma startResult_steps (tn yu : String) (t0 : Nat) (rv : Bool) (vp : String) :
    (startResult tn yu t0 rv vp).steps = [] := by
  unfold startResult initResult
  split <;> rfl

lemma finishRun_spec (t1 : Nat) (pr : TestResult × Option String) :
    ((finishRun t1 pr).overall_status = "success" ∨
      (finishRun t1 pr).overall_status = "error") ∧
    (finishRun t1 pr).end_time = some t1 ∧
    (finishRun t1 pr).start_time = pr.1.start_time ∧
    ((finishRun t1 pr).overall_status = "success" →
      pr.2 = none ∧ (finishRun t1 pr).steps = pr.1.steps) := by
  rcases pr with ⟨r, exc⟩
  cases exc with
  | none => exact ⟨Or.inl rfl, rfl, rfl, fun _ => ⟨rfl, rfl⟩⟩
  | some m =>
    refine ⟨Or.inr rfl, rfl, rfl, ?_⟩
    intro h
    exact absurd h (show ¬(("error" : String) = "success") by decide)

lemma exec_status (env : Env) (tn yu : String) (rv : Bool) (vp : String)
    (ce : Option String) (t0 t1 : Nat) :
    (execute_test env tn yu rv vp ce t0 t1).overall_status = "success" ∨
    (execute_test env tn yu rv vp ce t0 t1).overall_status = "error" := by
  unfold execute_test
  cases ce with
  | some m => exact Or.inr rfl
  | none => exact (finishRun_spec t1 _).1

lemma exec_end (env : Env) (tn yu : String) (rv : Bool) (vp : String)
    (ce : Option String) (t0 t1 : Nat) :
    (execute_test env tn yu rv vp ce t0 t1).end_time = some t1 := by
  unfold execute_test
  cases ce with
  | some m => rfl
  | none => exact (finishRun_spec t1 _).2.1

lemma exec_start (env : Env) (tn yu : String) (rv : Bool) (vp : String)
    (ce : Option String) (t0 t1 : Nat) :
    (execute_test env tn yu rv vp ce t0 t1).start_time = t0 := by
  unfold execute_test
  cases ce with
  | some m => rfl
  | none =>
    exact ((finishRun_spec t1 _).2.2.1).trans
      ((run_shape env _).1.trans (startResult_start tn yu t0 rv vp))

lemma exec_success_no_error (env : Env) (tn yu : String) (rv : Bool) (vp : String)
    (ce : Option String) (t0 t1 : Nat)
    (h : (execute_test env tn yu rv vp ce t0 t1).overall_status = "success") :
    ∀ s ∈ (execute_test env tn yu rv vp ce t0 t1).steps, s.status ≠ "error" := by
  revert h
  unfold execute_test
  cases ce with
  | some m =>
    intro h
    exact absurd h (show ¬(("error" : String) = "success") by decide)
  | none =>
    intro h s hs
    have hfin := finishRun_spec t1
      (run_standard_youtube_conversion_test env (startResult tn yu t0 rv vp))
    obtain ⟨hexc, hsteps⟩ := hfin.2.2.2 h
    rw [hsteps] at hs
    have hrs := run_shape env (startResult tn yu t0 rv vp)
    rcases hrs.2.2.2 hexc s hs with hmem | hne
    · rw [startResult_steps] at hmem
      exact absurd hmem (List.not_mem_nil s)
    · exact hne

/-! ## Claim theorems -/

/-- C3: for every run of `execute_test`, whether the test body returns
normally or raises, the returned Test Result has overall status `success` or
`error` (never left `pending`), its end time is set to the completion clock
`t1` (the single `complete` call on each path), and, the clock being monotone
(`t0 ≤ t1`), any recorded end time is at or after the start time. -/
theorem C3_terminal_status (env : Env) (tn yu : String) (rv : Bool) (vp : String)
    (ce : Option String) (t0 t1 : Nat) (hclock : t0 ≤ t1) :
    ((execute_test env tn yu rv vp ce t0 t1).overall_status = "success" ∨
      (execute_test env tn yu rv vp ce t0 t1).overall_status = "error") ∧
    (execute_test env tn yu rv vp ce t0 t1).end_time = some t1 ∧
    (execute_test env tn yu rv vp ce t0 t1).start_time = t0 ∧
    ∀ te, (execute_test env tn yu rv vp ce t0 t1).end_time = some te → t0 ≤ te := by
  refine ⟨exec_status env tn yu rv vp ce t0 t1, exec_end env tn yu rv vp ce t0 t1,
    exec_start env tn yu rv vp ce t0 t1, ?_⟩
  intro te hte
  rw [exec_end env tn yu rv vp ce t0 t1] at hte
  have h := Option.some.inj hte
  omega

/-- Witness for C3 at a concrete input. -/
theorem C3_terminal_status_witness :
    0 ≤ 9 ∧
    (((execute_test (gateEnv "Conversion failed") "youtube_converter"
        "https://www.youtube.com/watch?v=demo" false "" none 0 9).overall_status = "success" ∨
      (execute_test (gateEnv "Conversion failed") "youtube_converter"
        "https://www.youtube.com/watch?v=demo" false "" none 0 9).overall_status = "error") ∧
    (execute_test (gateEnv "Conversion failed") "youtube_converter"
      "https://www.youtube.com/watch?v=demo" false "" none 0 9).end_time = some 9 ∧
    (execute_test (gateEnv "Conversion failed") "youtube_converter"
      "https://www.youtube.com/watch?v=demo" false "" none 0 9).start_time = 0 ∧
    ∀ te, (execute_test (gateEnv "Conversion failed") "youtube_converter"
      "https://www.youtube.com/watch?v=demo" false "" none 0 9).end_time = some te → 0 ≤ te) :=
  ⟨by decide, C3_terminal_status (gateEnv "Conversion failed") "youtube_converter"
    "https://www.youtube.com/watch?v=demo" false "" none 0 9 (by decide)⟩

/-- C8: the overall status is `success` only if no recorded step has status
`error`; equivalently, a run that recorded any `error` step finishes with
overall status `error` (statuses other than these two never occur at
completion). -/
theorem C8_error_step_forces_error (env : Env) (tn yu : String) (rv : Bool)
    (vp : String) (ce : Option String) (t0 t1 : Nat) :
    ((execute_test env tn yu rv vp ce t0 t1).overall_status = "success" →
      ∀ s ∈ (execute_test env tn yu rv vp ce t0 t1).steps, s.status ≠ "error") ∧
    ((∃ s ∈ (execute_test env tn yu rv vp ce t0 t1).steps, s.status = "error") →
      (execute_test env tn yu rv vp ce t0 t1).overall_status = "error") := by
  refine ⟨exec_success_no_error env tn yu rv vp ce t0 t1, ?_⟩
  rintro ⟨s, hs, he⟩
  rcases exec_status env tn yu rv vp ce t0 t1 with h | h
  · exact absurd he (exec_success_no_error env tn yu rv vp ce t0 t1 h s hs)
  · exact h

/-- Witness for C8 at a concrete input: scenario B records error steps and
finishes with overall status `error`. -/
theorem C8_error_step_forces_error_witness :
    (∃ s ∈ resultB.steps, s.status = "error") ∧ resultB.overall_status = "error" :=
  ⟨by decide,
   (C8_error_step_forces_error (gateEnv "Conversion failed") "youtube_converter"
      "https://www.youtube.com/watch?v=demo" false "" none 0 9).2 (by decide)⟩

/-- C2: the classifier calls never raise to their caller: for every model-call
outcome and every behaviour of the external JSON parser, a raised call is
turned into a returned dictionary with `error` true carrying the failure
detail, a parse failure is turned into a returned dictionary with `error` true
whose message starts with `Failed to parse`, and a successful parse is
returned as is.  The embedded functions are total (`JVal`-valued, with no
exception component) precisely because the two `except` clauses cover every
constructor of `PyExc`. -/
theorem C2_classifier_fail_closed (jsonLoads : String → Except String JVal)
    (resp : LLMOutcome) :
    (∀ m, resp = .raises m →
      check_screenshot_for_errors jsonLoads resp =
        .obj [("error", .bool true),
              ("message", .str ("Error analyzing OCR text: " ++ m))] ∧
      check_final_state jsonLoads resp =
        .obj [("error", .bool true),
              ("message", .str ("Error analyzing final state: " ++ m))]) ∧
    (∀ raw e, resp = .content raw →
      jsonLoads (extract_json_part (pyStrip raw)) = .error e →
      ∃ t, check_screenshot_for_errors jsonLoads resp =
        .obj [("error", .bool true), ("message", .str ("Failed to parse" ++ t))]) ∧
    (∀ raw e, resp = .content raw →
      jsonLoads (extract_json_part raw) = .error e →
      ∃ t, check_final_state jsonLoads resp =
        .obj [("error", .bool true), ("message", .str ("Failed to parse" ++ t))]) ∧
    (∀ raw v, resp = .content raw →
      jsonLoads (extract_json_part (pyStrip raw)) = .ok v →
      check_screenshot_for_errors jsonLoads resp = v) := by
  refine ⟨?_, ?_, ?_, ?_⟩
  · rintro m rfl
    exact ⟨rfl, rfl⟩
  · rintro raw e rfl hparse
    refine ⟨" LLM response as JSON: " ++ e ++ ". Raw response: " ++
      extract_json_part (pyStrip raw), ?_⟩
    unfold check_screenshot_for_errors check_screenshot_body
    dsimp only
    rw [hparse]
    have hsplit : ("Failed to parse LLM response as JSON: " : String) =
        "Failed to parse" ++ " LLM response as JSON: " := by decide
    simp only [hsplit, String.append_assoc]
  · rintro raw e rfl hparse
    refine ⟨" LLM response as JSON: " ++ e ++ ". Raw response: " ++
      extract_json_part raw, ?_⟩
    unfold check_final_state check_final_body
    dsimp only
    rw [hparse]
    have hsplit : ("Failed to parse LLM response as JSON: " : String) =
        "Failed to parse" ++ " LLM response as JSON: " := by decide
    simp only [hsplit, String.append_assoc]
  · rintro raw v rfl hparse
    unfold check_screenshot_for_errors check_screenshot_body
    dsimp only
    rw [hparse]

/-- Witness for C2 at a concrete input: a stubbed completion that is not JSON
round-trips to an error dictionary whose message starts with
`Failed to parse`. -/
theorem C2_classifier_fail_closed_witness :
    LLMOutcome.content "I am not JSON" = LLMOutcome.content "I am not JSON" ∧
    (fun _ => Except.error "Expecting value: line 1 column 1 (char 0)" :
        String → Except String JVal) (extract_json_part (pyStrip "I am not JSON")) =
      .error "Expecting value: line 1 column 1 (char 0)" ∧
    ∃ t, check_screenshot_for_errors
        (fun _ => Except.error "Expecting value: line 1 column 1 (char 0)")
        (.content "I am not JSON") =
      .obj [("error", .bool true), ("message", .str ("Failed to parse" ++ t))] :=
  ⟨rfl, rfl,
   (C2_classifier_fail_closed
      (fun _ => Except.error "Expecting value: line 1 column 1 (char 0)")
      (.content "I am not JSON")).2.1 "I am not JSON"
      "Expecting value: line 1 column 1 (char 0)" rfl rfl⟩

lemma pollLoop_fuel (vis dl : Nat → Bool) :
    ∀ k e, 120 ≤ e + k → e % 5 = 0 → e ≤ 120 →
      (pollLoop vis dl e).2 ≤ 120 ∧ (pollLoop vis dl e).2 % 5 = 0 ∧
      (((pollLoop vis dl e).1 = .indicatorGone ∧ (pollLoop vis dl e).2 < 120 ∧
          vis (pollLoop vis dl e).2 = false) ∨
       ((pollLoop vis dl e).1 = .downloadFound ∧ (pollLoop vis dl e).2 < 120 ∧
          vis (pollLoop vis dl e).2 = true ∧ dl (pollLoop vis dl e).2 = true) ∨
       ((pollLoop vis dl e).1 = .budgetExceeded ∧ (pollLoop vis dl e).2 = 120)) := by
  intro k
  induction k with
  | zero =>
    intro e h1 h2 h3
    have he : e = 120 := by omega
    subst he
    rw [pollLoop]
    simp
  | succ k ih =>
    intro e h1 h2 h3
    rw [pollLoop]
    by_cases hlt : e < 120
    · rw [dif_pos hlt]
      cases hv : vis e with
      | false =>
        rw [if_pos (rfl : (false : Bool) = false)]
        exact ⟨h3, h2, Or.inl ⟨rfl, hlt, hv⟩⟩
      | true =>
        rw [if_neg (by decide : ¬((true : Bool) = false))]
        cases hd : dl e with
        | true =>
          rw [if_pos (rfl : (true : Bool) = true)]
          exact ⟨h3, h2, Or.inr (Or.inl ⟨rfl, hlt, hv, hd⟩)⟩
        | false =>
          rw [if_neg (by decide : ¬((false : Bool) = true))]
          exact ih (e + 5) (by omega) (by omega) (by omega)
    · rw [dif_neg hlt]
      have he : e = 120 := by omega
      subst he
      simp

/-- C4: the Conversion Progress Monitor terminates for every page state.  With
an indicator found it polls in 5-second steps and stops as soon as the
indicator is not visible, or a download element is queryable, or the
120-second budget elapses — in particular it exits at exactly 120 seconds when
the indicator stays visible forever and no download affordance ever appears.
Exceeding the budget is not an error: checkpoint 6 still records its success
steps and hands control to final verification.  With no indicator found, the
monitor is one fixed 60-second sleep. -/
theorem C4_monitor_bounded (vis dl : Nat → Bool) :
    conversionMonitor false vis dl = .fixedSleep 60 ∧
    (∀ ex t, conversionMonitor true vis dl = .polled ex t →
      t ≤ 120 ∧ t % 5 = 0 ∧
      ((ex = .indicatorGone ∧ t < 120 ∧ vis t = false) ∨
       (ex = .downloadFound ∧ t < 120 ∧ vis t = true ∧ dl t = true) ∨
       (ex = .budgetExceeded ∧ t = 120))) ∧
    ((∀ t, vis t = true) → (∀ t, dl t = false) →
      conversionMonitor true vis dl = .polled .budgetExceeded 120) ∧
    (∀ (e : WaitEnv) (st : CpState) (b p q : String),
      e.pre_exc = none → locateFirst e.selectors = some b →
      e.prog_shot = .ok p → e.final_shot = .ok q →
      (checkpoint6 e st).2 = none ∧
      (checkpoint6 e st).1.result.steps = st.result.steps ++
        [{ name := "conversion_in_progress", status := "success", screenshot_path := some p },
         { name := "wait_for_conversion", status := "success", screenshot_path := some q }]) := by
  refine ⟨rfl, ?_, ?_, ?_⟩
  · intro ex t h
    have hm : MonitorResult.polled (pollLoop vis dl 0).1 (pollLoop vis dl 0).2 =
        .polled ex t := h
    injection hm with hm1 hm2
    subst hm1
    subst hm2
    have hf := pollLoop_fuel vis dl 120 0 (by omega) (by decide) (by decide)
    exact ⟨hf.1, hf.2.1, hf.2.2⟩
  · intro hv hd
    have hf := pollLoop_fuel vis dl 120 0 (by omega) (by decide) (by decide)
    rcases hf.2.2 with ⟨_, _, hvis⟩ | ⟨_, _, _, hdt⟩ | ⟨hex, ht⟩
    · rw [hv ((pollLoop vis dl 0).2)] at hvis
      exact absurd hvis (by decide)
    · rw [hd ((pollLoop vis dl 0).2)] at hdt
      exact absurd hdt (by decide)
    · calc conversionMonitor true vis dl
          = .polled (pollLoop vis dl 0).1 (pollLoop vis dl 0).2 := rfl
        _ = .polled .budgetExceeded 120 := by rw [hex, ht]
  · intro e st b p q h1 h2 h3 h4
    simp [checkpoint6, cp6_finish, h1, h2, h3, h4, TestResult.add_step]

/-- Witness for C4 at concrete inputs: a permanently visible indicator with no
download affordance polls for exactly the 120-second budget, and a missing
indicator sleeps the fixed 60 seconds. -/
theorem C4_monitor_bounded_witness :
    conversionMonitor true (fun _ => true) (fun _ => false) = .polled .budgetExceeded 120 ∧
    conversionMonitor false (fun _ => true) (fun _ => false) = .fixedSleep 60 :=
  ⟨(C4_monitor_bounded (fun _ => true) (fun _ => false)).2.2.1 (fun _ => rfl) (fun _ => rfl),
   (C4_monitor_bounded (fun _ => true) (fun _ => false)).1⟩

lemma mem_of_mem_pyStrip {c : Char} {s : String} (h : c ∈ (pyStrip s).toList) :
    c ∈ s.toList := by
  have h1 : c ∈ ((s.toList.dropWhile Char.isWhitespace).reverse.dropWhile
      Char.isWhitespace).reverse := h
  rw [List.mem_reverse] at h1
  have h2 := (List.dropWhile_sublist (l := (s.toList.dropWhile Char.isWhitespace).reverse)
    Char.isWhitespace).subset h1
  rw [List.mem_reverse] at h2
  exact (List.dropWhile_sublist Char.isWhitespace).subset h2

lemma mem_asciiIgnore_lt {c : Char} {s : String} (h : c ∈ (asciiIgnore s).toList) :
    c.toNat < 128 := by
  have h1 : c ∈ s.toList.filter (fun c => decide (c.toNat < 128)) := h
  exact of_decide_eq_true ((List.mem_filter.mp h1).2)

/-- C5 counterexample: the OCR extraction does not return only printable
ASCII.  With the identity in place of NFKD (which is the identity on this pure
ASCII input) and the OCR engine reading the two lines `a` and `b`, the
returned string keeps the interior newline, character code 10, outside the
printable range 32-126. -/
theorem C5_counterexample :
    ¬ (∀ c ∈ (extract_text_from_image id true (.ok "a\nb")).toList,
        32 ≤ c.toNat ∧ c.toNat ≤ 126) := by decide

/-- C5 amended: on the path that opens and reads the image successfully, the
returned string is pure ASCII — every character code is below 128, for any
behaviour of the NFKD normalisation — and so is the fixed `Image file not
found` return; but the exception return path passes the raised message through
unsanitised as `OCR Error: <message>`. -/
theorem C5_amended_ascii (nfkd : String → String) (text e : String)
    (ocr : Except String String) :
    (∀ c ∈ (extract_text_from_image nfkd true (.ok text)).toList, c.toNat < 128) ∧
    (∀ c ∈ (extract_text_from_image nfkd false ocr).toList, c.toNat < 128) ∧
    extract_text_from_image nfkd true (.error e) = "OCR Error: " ++ e := by
  refine ⟨?_, ?_, rfl⟩
  · intro c hc
    have hc' : c ∈ (pyStrip (asciiIgnore (nfkd text))).toList := hc
    exact mem_asciiIgnore_lt (mem_of_mem_pyStrip hc')
  · have hlit : ∀ c ∈ ("Image file not found" : String).toList, c.toNat < 128 := by decide
    intro c hc
    exact hlit c hc

lemma locateFirst_first_hit (pre : List (Except String (Option String)))
    (b : String) (post : List (Except String (Option String)))
    (h : ∀ o ∈ pre, ∀ el, o ≠ .ok (some el)) :
    locateFirst (pre ++ .ok (some b) :: post) = some b := by
  induction pre with
  | nil => rfl
  | cons o rest ih =>
    have hrest : ∀ o ∈ rest, ∀ el, o ≠ Except.ok (some el) :=
      fun o2 ho2 el => h o2 (List.mem_cons_of_mem o ho2) el
    cases o with
    | error m =>
      simpa [locateFirst] using ih hrest
    | ok oo =>
      cases oo with
      | some el => exact absurd rfl (h (.ok (some el)) (List.mem_cons_self _ _) el)
      | none => simpa [locateFirst] using ih hrest

lemma textScan_first_hit (pre2 post2 : List (String × String)) (t el kw : String)
    (h : ∀ q ∈ pre2, strContains (pyLower q.1) kw = false)
    (ht : strContains (pyLower t) kw = true) :
    textScan kw (pre2 ++ (t, el) :: post2) = some el := by
  induction pre2 with
  | nil => simp [textScan, ht]
  | cons q rest ih =>
    have hq := h q (List.mem_cons_self _ _)
    have hrest : ∀ q2 ∈ rest, strContains (pyLower q2.1) kw = false :=
      fun q2 hq2 => h q2 (List.mem_cons_of_mem q hq2)
    rcases q with ⟨qt, qe⟩
    simpa [textScan, hq] using ih hrest

/-- C6: the Element Locator short-circuits on the first matching strategy in
priority order — with strategies `pre ++ hit :: post` where every strategy in
`pre` misses (raised timeout or falsy result), the element of `hit` is
returned and the later strategies are never consulted; if every strategy
misses the locator falls back to the clickable-element text scan, which
returns the first element whose lower-cased visible text contains the
keyword. -/
theorem C6_locator_priority :
    (∀ (pre post : List (Except String (Option String))) (b : String)
        (fb : List (String × String)) (kw : String),
      (∀ o ∈ pre, ∀ el, o ≠ .ok (some el)) →
      locate_element (pre ++ .ok (some b) :: post) fb kw = some b) ∧
    (∀ (outs : List (Except String (Option String))) (fb : List (String × String))
        (kw : String),
      locateFirst outs = none → locate_element outs fb kw = textScan kw fb) ∧
    (∀ (pre2 post2 : List (String × String)) (t el kw : String),
      (∀ q ∈ pre2, strContains (pyLower q.1) kw = false) →
      strContains (pyLower t) kw = true →
      textScan kw (pre2 ++ (t, el) :: post2) = some el) := by
  refine ⟨?_, ?_, ?_⟩
  · intro pre post b fb kw h
    unfold locate_element
    rw [locateFirst_first_hit pre b post h]
  · intro outs fb kw h
    unfold locate_element
    rw [h]
  · exact textScan_first_hit

/-- Witness for C6 at concrete inputs: with strategies `[A, B, C]` where only
B and C match, the locator returns the element of B, never C; and the
text-scan fallback picks the first clickable element containing `url`
case-insensitively. -/
theorem C6_locator_priority_witness :
    locate_element [.error "Timeout 3000ms exceeded", .ok (some "B"), .ok (some "C")]
      [] "url" = some "B" ∧
    locate_element [.error "Timeout 3000ms exceeded", .ok none]
      [("Convert", "btn"), ("Paste the URL here", "urlTab")] "url" = some "urlTab" :=
  ⟨C6_locator_priority.1 [.error "Timeout 3000ms exceeded"] [.ok (some "C")] "B" [] "url"
    (by
      intro o ho el
      rw [List.mem_singleton] at ho
      subst ho
      exact fun hcontra => Except.noConfusion hcontra),
   by decide⟩

/-- C7 counterexample: when no format selector matches at all and nothing
raises, checkpoint 4 records a `success` step — not the single `warning` step
the claim asserts for that case (the warning is recorded only when the body
raises an exception). -/
theorem C7_counterexample :
    ((checkpoint4 fmtMissEnv stInit).1.result.steps.map fun s => (s.name, s.status)) =
      [("select_mp4_format", "success")] ∧
    (checkpoint4 fmtMissEnv stInit).2 = none ∧
    ¬ ∃ s ∈ (checkpoint4 fmtMissEnv stInit).1.result.steps, s.status = "warning" := by
  decide

/-- C7 amended: when the format-selection checkpoint body raises (page wait,
selector click, or the success screenshot), and the warning-path screenshot
succeeds, exactly one warning step named `select_mp4_format` is recorded and
no exception is re-raised, so the run proceeds to the convert-button
checkpoint; a run in which no format selector matches without an exception
records a success step instead. -/
theorem C7_amended_soft_failure (e : FormatEnv) (st : CpState) (p : String)
    (hhs : e.handler_shot = .ok p) :
    ((cp4_handler e st).2 = none ∧
      (cp4_handler e st).1.result.steps = st.result.steps ++ [cp4_warn_step p]) ∧
    (∀ m, e.pre_exc = some m → checkpoint4 e st = cp4_handler e st) ∧
    (∀ b m, e.pre_exc = none → locateFirst e.selectors = some b → e.click_exc = some m →
      checkpoint4 e st = cp4_handler e st) ∧
    (∀ m, e.pre_exc = none → e.shot = .error m → checkpoint4 e st = cp4_handler e st) := by
  refine ⟨?_, ?_, ?_, ?_⟩
  · unfold cp4_handler cp4_warn_step
    rw [hhs]
    exact ⟨rfl, rfl⟩
  · intro m hm
    simp [checkpoint4, hm]
  · intro b m hp hl hc
    simp [checkpoint4, hp, hl, hc]
  · intro m hp hsh
    cases hl : locateFirst e.selectors with
    | none => simp [checkpoint4, cp4_after, hp, hl, hsh]
    | some b =>
      cases hc : e.click_exc with
      | some m2 => simp [checkpoint4, hp, hl, hc]
      | none => simp [checkpoint4, cp4_after, hp, hl, hc, hsh]

/-- Witness for C7 amended at a concrete input: a raised page wait yields the
single warning step and no re-raise. -/
theorem C7_amended_soft_failure_witness :
    (checkpoint4 fmtFailEnv stInit).2 = none ∧
    (checkpoint4 fmtFailEnv stInit).1.result.steps =
      stInit.result.steps ++ [cp4_warn_step "select_format_warning.png"] := by
  have h := C7_amended_soft_failure fmtFailEnv stInit "select_format_warning.png" rfl
  rw [h.2.1 "Timeout 10000ms exceeded" rfl]
  exact h.1

/-- C9 at the failing input: when the checkpoint body fails (no URL link
found) and `take_screenshot` inside the `except` handler itself raises, the
propagated exception is the capture failure — not the original error — and no
error step is recorded; when the handler capture succeeds, the error step does
carry the screenshot.  This contradicts the claim that a capture failure never
masks the original exception. -/
theorem C9_screenshot_masking :
    (checkpoint2 c9Env stInit).2 = some "Page.screenshot: target page has been closed" ∧
    (checkpoint2 c9Env stInit).1.result.steps = [] ∧
    (checkpoint2 c9EnvOk stInit).2 = some "Could not find URL link element" ∧
    ((checkpoint2 c9EnvOk stInit).1.result.steps.map
      fun s => (s.name, s.status, s.screenshot_path)) =
      [("click_url_link", "error", some "url_link_error.png")] := by
  decide

/-- C10 (implicit): a run reaching the input-YouTube-URL checkpoint never
interacts with a page input field on any path — `prompt_input` is always
`None`, so the focus/click/fill/type block is dead code and the URL can only
arrive through the dialog handler registered by the previous checkpoint — and
the success step it records reuses the screenshot path captured by the
click-url-link checkpoint at line 160 instead of taking a new screenshot. -/
theorem C10_input_checkpoint (e2 : ClickUrlEnv) (e3 : InputUrlEnv) (st : CpState)
    (el p : String) (h1 : e2.pre_exc = none)
    (h2 : locate_element e2.selectors e2.fallback "url" = some el)
    (h3 : e2.shot = .ok p) (h4 : e3.eval_exc = none) :
    (∀ (e : InputUrlEnv) (stb : CpState), (checkpoint3 e stb).1.actions = stb.actions) ∧
    (checkpoint3 e3 (checkpoint2 e2 st).1).1.result.steps =
      (checkpoint2 e2 st).1.result.steps ++
        [{ name := "input_youtube_url", status := "success", screenshot_path := some p }] := by
  have hcp2 : checkpoint2 e2 st = ({ st with result := st.result.add_step { name := "click_url_link", status := "success", screenshot_path := some p }, shot := p }, none) := by
    simp [checkpoint2, h1, h2, h3]
  constructor
  · intro e stb
    unfold checkpoint3
    cases he : e.eval_exc with
    | some m => cases hh : e.handler_shot <;> rfl
    | none => cases hf : e.input_field_needed <;> simp
  · rw [hcp2]
    simp [checkpoint3, h4, TestResult.add_step]

/-- Witness for C10 at a concrete input: the recorded step carries the
click-url-link screenshot path. -/
theorem C10_input_checkpoint_witness :
    (checkpoint3 {} (checkpoint2 (gateEnv "x").click stInit).1).1.result.steps =
      (checkpoint2 (gateEnv "x").click stInit).1.result.steps ++
        [{ name := "input_youtube_url", status := "success",
           screenshot_path := some "click_url_link.png" }] :=
  (C10_input_checkpoint (gateEnv "x").click {} stInit "a#open_link"
    "click_url_link.png" rfl rfl rfl rfl).2

/-- C1 counterexample: in end-to-end scenario B (pre-convert classifier gate
reports `Conversion failed`), three error steps are recorded for the single
failure — the gate step, the checkpoint boundary step, and the orchestrator
step — not exactly one, and two further steps are recorded after the gate step
that carries the classifier message. -/
theorem C1_counterexample :
    (resultB.steps.filter fun s => s.status == "error").length = 3 ∧
    ¬ ((resultB.steps.filter fun s => s.status == "error").length = 1) ∧
    (resultB.steps.map fun s => (s.name, s.status, s.error_message)) =
      [("navigate_to_site", "success", none),
       ("click_url_link", "success", none),
       ("input_youtube_url", "success", none),
       ("select_mp4_format", "success", none),
       ("before_convert_button", "error", some "Conversion failed"),
       ("click_convert_button", "error", some "Pre-conversion error: Conversion failed"),
       ("test_execution_failed", "error", some "Pre-conversion error: Conversion failed")] := by
  decide

/-- C1 amended: when an exception is raised inside a hard checkpoint body,
the boundary handler appends exactly one error-status step and re-raises
(checkpoint 1 without a screenshot; checkpoints 2, 3, 5 and 6 with their
inline handler screenshot, when that capture succeeds) — except the
verify-download checkpoint, whose handler appends no step when the message
contains `Conversion failed` (exactly what its own gate raises) and appends
the one error step only for other messages.  A pre-convert classifier-gate
error with message `m` additionally has the gate itself append an error step
carrying `m` before raising, so two error steps are recorded at that
checkpoint and the orchestrator appends a third, `test_execution_failed`; the
run aborts with overall status `error` and its last step has status `error`
with a message containing `m`. -/
theorem C1_amended_gate_trace (m : String) :
    ((execute_test (gateEnv m) "youtube_converter"
        "https://www.youtube.com/watch?v=demo" false "" none 0 9).steps.map
      fun s => (s.name, s.status, s.error_message)) =
      [("navigate_to_site", "success", none),
       ("click_url_link", "success", none),
       ("input_youtube_url", "success", none),
       ("select_mp4_format", "success", none),
       ("before_convert_button", "error", some m),
       ("click_convert_button", "error", some ("Pre-conversion error: " ++ m)),
       ("test_execution_failed", "error", some ("Pre-conversion error: " ++ m))] ∧
    (execute_test (gateEnv m) "youtube_converter"
      "https://www.youtube.com/watch?v=demo" false "" none 0 9).overall_status = "error" ∧
    ((execute_test (gateEnv m) "youtube_converter"
        "https://www.youtube.com/watch?v=demo" false "" none 0 9).steps.getLast?.map
      fun s => (s.status, s.error_message)) =
      some ("error", some ("Pre-conversion error: " ++ m)) ∧
    (∀ (e : NavEnv) (st : CpState) (m2 : String),
      e.pre_exc = some m2 →
      checkpoint1 e st =
        ({ st with result := st.result.add_step (cp1_fail_step m2) }, some m2)) ∧
    (∀ (e : ClickUrlEnv) (st : CpState) (m2 p : String),
      e.handler_shot = .ok p →
      cp2_handler e st m2 =
        ({ st with result := st.result.add_step (cp2_fail_step m2 p) }, some m2)) ∧
    (∀ (e : InputUrlEnv) (st : CpState) (m2 p : String),
      e.eval_exc = some m2 → e.handler_shot = .ok p →
      checkpoint3 e st =
        ({ st with result := st.result.add_step (cp3_fail_step m2 p) }, some m2)) ∧
    (∀ (e : ConvertEnv) (st : CpState) (m2 p : String),
      e.handler_shot = .ok p →
      cp5_handler e st m2 =
        ({ st with result := st.result.add_step (cp5_fail_step m2 p) }, some m2)) ∧
    (∀ (e : WaitEnv) (st : CpState) (m2 p : String),
      e.pre_exc = some m2 → e.handler_shot = .ok p →
      checkpoint6 e st =
        ({ st with result := st.result.add_step (cp6_fail_step m2 p) }, some m2)) ∧
    (∀ (e : FinalEnv) (st : CpState) (m2 p : String),
      strContains m2 "Conversion failed" = false → e.handler_shot = .ok p →
      cp7_handler e st m2 =
        ({ st with result := st.result.add_step (cp7_fail_step m2 p) }, some m2)) ∧
    (∀ (e : FinalEnv) (st : CpState) (m2 : String),
      strContains m2 "Conversion failed" = true →
      cp7_handler e st m2 = (st, some m2)) := by
  refine ⟨rfl, rfl, rfl, ?_, ?_, ?_, ?_, ?_, ?_, ?_⟩
  · intro e st m2 hp
    simp [checkpoint1, cp1_fail_step, hp]
  · intro e st m2 p hh
    simp [cp2_handler, cp2_fail_step, hh]
  · intro e st m2 p he hh
    simp [checkpoint3, cp3_fail_step, he, hh]
  · intro e st m2 p hh
    simp [cp5_handler, cp5_fail_step, hh]
  · intro e st m2 p hp hh
    simp [checkpoint6, cp6_handler, cp6_fail_step, hp, hh]
  · intro e st m2 p hc hh
    simp [cp7_handler, cp7_fail_step, hc, hh]
  · intro e st m2 hc
    simp [cp7_handler, hc]

/-- Witness for C1 amended at concrete inputs: the single-error-step boundary
behaviour of the wait checkpoint, the verify-download handler recording one
error step for an ordinary message, and the same handler skipping the step
for a message containing `Conversion failed`. -/
theorem C1_amended_gate_trace_witness :
    checkpoint6 waitFailEnv stInit =
      ({ stInit with result := stInit.result.add_step (cp6_fail_step "Timeout 10000ms exceeded" "conversion_error.png") },
       some "Timeout 10000ms exceeded") ∧
    cp7_handler finalFailEnv stInit "Timeout 10000ms exceeded" =
      ({ stInit with result := stInit.result.add_step (cp7_fail_step "Timeout 10000ms exceeded" "download_check_error.png") },
       some "Timeout 10000ms exceeded") ∧
    cp7_handler finalFailEnv stInit "Conversion failed: no file produced" =
      (stInit, some "Conversion failed: no file produced") :=
  ⟨(C1_amended_gate_trace "Conversion failed").2.2.2.2.2.2.2.1 waitFailEnv stInit
     "Timeout 10000ms exceeded" "conversion_error.png" rfl rfl,
   (C1_amended_gate_trace "Conversion failed").2.2.2.2.2.2.2.2.1 finalFailEnv stInit
     "Timeout 10000ms exceeded" "download_check_error.png" (by decide) rfl,
   (C1_amended_gate_trace "Conversion failed").2.2.2.2.2.2.2.2.2 finalFailEnv stInit
     "Conversion failed: no file produced" (by decide)⟩
